import Mathlib

/-!
A verification development for the uniform-polytope building module
(`polytopes/models.py`).  The Python classes are shallowly embedded:
pure methods become Lean functions and the mutable builder objects become
explicit state records threaded through the build steps.  The Todd-Coxeter
coset table (implemented in `todd_coxeter.py`, outside the embedded
module) is represented by its documented output contract.
-/

/-- A word over generator indices, as in the source (a tuple of ints). -/
abbrev Word := List Nat

/-- Modelled from the spec: the output contract of the Coset Table
component (`todd_coxeter.CosetTable`, which is not part of the embedded
source file).  After enumeration the table provides the action map
`(coset, generator) -> coset` (read as `table[c][g]` in the source) and
a list of shortest representative words, one per live coset; the number
of cosets is the length of that list. -/
structure CosetTableResult where
  next : Nat → Nat → Nat
  words : List Word

/-- Modelled from the spec: an enumeration oracle standing for
`CosetTable(gens, rels, subgens, coxeter)` followed by `run()` and
reading the results.  The builders of `models.py` only consume this
interface. -/
def CosetEnum : Type := List Nat → List Word → List Word → Bool → CosetTableResult

/-- Python tuple repetition `w * k`. -/
def wordPow (w : Word) : Nat → Word
  | 0 => []
  | k + 1 => w ++ wordPow w k

/-- Python `zip(w[:-1:2], w[1::2])` for an even-length `w`: the list of
adjacent pairs `(w[0], w[1]), (w[2], w[3]), ...`. -/
def adjacentPairs : List Nat → List (Nat × Nat)
  | x :: y :: rest => (x, y) :: adjacentPairs rest
  | _ => []

/-- The mutable fields of a `BasePolytope` object (created by
`__init__`, filled in by `build_geometry`). -/
structure PolyState (V : Type) where
  vtable : Option CosetTableResult
  vwords : List Word
  num_vertices : Nat
  num_edges : Nat
  num_faces : Nat
  vertices_coords : List V
  edge_indices : List (List (List Nat))
  face_indices : List (List (List Nat))

/-- The state of a builder right after `BasePolytope.__init__`. -/
def PolyState.init (V : Type) : PolyState V :=
  { vtable := none, vwords := [], num_vertices := 0, num_edges := 0,
    num_faces := 0, vertices_coords := [], edge_indices := [],
    face_indices := [] }

/-- The immutable data captured by `BasePolytope.__init__`: the number of
mirrors, the Coxeter matrix, the activity flags derived from the initial
distances, the reflection transforms (external numeric collaborators,
kept abstract), the initial vertex, the extra relations, and the coset
enumeration oracle. -/
structure PolyConfig (V : Type) where
  n : Nat
  M : Nat → Nat → Nat
  active : Nat → Bool
  refl : Nat → V → V
  init_v : V
  extras : List Word
  enum : CosetEnum

namespace BasePolytope

/-- `itertools.combinations(range(n), 2)`: the pairs `i < j` in
lexicographic order. -/
def pairsLt (n : Nat) : List (Nat × Nat) :=
  (List.range n).flatMap (fun i =>
    ((List.range n).filter (fun j => decide (i < j))).map (fun j => (i, j)))

/-- `self.symmetry_rels`: the Coxeter relations `(i, j) * M[i][j]` over
all pairs `i < j`, followed by the extra relations. -/
def symmetry_rels {V : Type} (cfg : PolyConfig V) : List Word :=
  (pairsLt cfg.n).map (fun ij => wordPow [ij.1, ij.2] (cfg.M ij.1 ij.2)) ++ cfg.extras

/-- `BasePolytope.transform`: apply the reflections named by the word to
a vector, left to right. -/
def transform {V : Type} (refl : Nat → V → V) (v : V) (w : Word) : V :=
  w.foldl (fun u g => refl g u) v

/-- `BasePolytope.move`: apply the word to a vertex index through the
coset table, left to right. -/
def move (vt : CosetTableResult) (v : Nat) (w : Word) : Nat :=
  w.foldl vt.next v

/-- `BasePolytope.get_orbit`: apply each coset representative word
pointwise to a base edge or face. -/
def get_orbit (vt : CosetTableResult) (reps : List Word) (base : List Nat) :
    List (List Nat) :=
  reps.map (fun w => base.map (fun v => move vt v w))

/-- `BasePolytope.get_orthogonal_stabilizing_mirrors`: the one-letter
words `(s,)` for those generators `s` that commute with everything in
`subgens` (entry 2 in the Coxeter matrix) and fix the initial vertex. -/
def get_orthogonal_stabilizing_mirrors (n : Nat) (M : Nat → Nat → Nat)
    (active : Nat → Bool) (subgens : List Nat) : List Word :=
  ((List.range n).filter
    (fun s => subgens.all (fun x => M x s == 2) && !active s)).map (fun s => [s])

/-- `BasePolytope.get_coset_representatives`: run a fresh coset
enumeration for the subgroup generated by `subgens` and return the
representative words. -/
def get_coset_representatives {V : Type} (cfg : PolyConfig V)
    (subgens : List Word) (coxeter : Bool) : List Word :=
  (cfg.enum (List.range cfg.n) (symmetry_rels cfg) subgens coxeter).words

/-- The vertex stabilizer generators `[(i,) for i inactive]` of
`BasePolytope.get_vertices`. -/
def vertex_gens {V : Type} (cfg : PolyConfig V) : List Word :=
  ((List.range cfg.n).filter (fun i => !cfg.active i)).map (fun i => [i])

/-- The coset table computed by `BasePolytope.get_vertices`. -/
def vertex_table {V : Type} (cfg : PolyConfig V) : CosetTableResult :=
  cfg.enum (List.range cfg.n) (symmetry_rels cfg) (vertex_gens cfg) true

/-- `BasePolytope.get_vertices`: set the coset table, the vertex words,
their number and the vertex coordinates. -/
def get_vertices {V : Type} (cfg : PolyConfig V) (p : PolyState V) : PolyState V :=
  { p with
    vtable := some (vertex_table cfg),
    vwords := (vertex_table cfg).words,
    num_vertices := (vertex_table cfg).words.length,
    vertices_coords := (vertex_table cfg).words.map (transform cfg.refl cfg.init_v) }

/-- The edge stabilizer generators `[(i,)] +
get_orthogonal_stabilizing_mirrors((i,))` of `BasePolytope.get_edges`. -/
def edge_gens (n : Nat) (M : Nat → Nat → Nat) (active : Nat → Bool) (i : Nat) :
    List Word :=
  [i] :: get_orthogonal_stabilizing_mirrors n M active [i]

/-- The body of the loop of `BasePolytope.get_edges` for a mirror `i`. -/
def edge_step {V : Type} (cfg : PolyConfig V) (vt : CosetTableResult)
    (st : PolyState V) (i : Nat) : PolyState V :=
  if cfg.active i then
    let e0 := [0, move vt 0 [i]]
    let reps := get_coset_representatives cfg (edge_gens cfg.n cfg.M cfg.active i) true
    let orbit := get_orbit vt reps e0
    { st with edge_indices := st.edge_indices ++ [orbit],
              num_edges := st.num_edges + orbit.length }
  else st

/-- `BasePolytope.get_edges`, given the already computed vertex table. -/
def get_edges_aux {V : Type} (cfg : PolyConfig V) (vt : CosetTableResult)
    (p : PolyState V) : PolyState V :=
  (List.range cfg.n).foldl (edge_step cfg vt) p

/-- `BasePolytope.get_edges`: reads `self.vtable` (always set after
`get_vertices`; the source would raise on `None`). -/
def get_edges {V : Type} (cfg : PolyConfig V) (p : PolyState V) : PolyState V :=
  match p.vtable with
  | none => p
  | some vt => get_edges_aux cfg vt p

/-- The base face built by `BasePolytope.get_faces` for a pair `i < j`:
`none` models the `continue` branch. -/
def face_base (M : Nat → Nat → Nat) (active : Nat → Bool)
    (vt : CosetTableResult) (i j : Nat) : Option (List Nat) :=
  if active i && active j then
    some ((List.range (M i j)).foldl (fun f0 k =>
      f0 ++ [move vt 0 (wordPow [i, j] k), move vt 0 (j :: wordPow [i, j] k)]) [])
  else if (active i || active j) && decide (2 < M i j) then
    some ((List.range (M i j)).foldl (fun f0 k => f0 ++ [move vt 0 (wordPow [i, j] k)]) [])
  else
    none

/-- The face stabilizer generators `[(i,), (j,)] +
get_orthogonal_stabilizing_mirrors([i, j])`. -/
def face_gens (n : Nat) (M : Nat → Nat → Nat) (active : Nat → Bool) (i j : Nat) :
    List Word :=
  [i] :: [j] :: get_orthogonal_stabilizing_mirrors n M active [i, j]

/-- The body of the loop of `BasePolytope.get_faces` for a pair `i < j`. -/
def face_step {V : Type} (cfg : PolyConfig V) (vt : CosetTableResult)
    (st : PolyState V) (ij : Nat × Nat) : PolyState V :=
  match face_base cfg.M cfg.active vt ij.1 ij.2 with
  | none => st
  | some f0 =>
    let reps := get_coset_representatives cfg (face_gens cfg.n cfg.M cfg.active ij.1 ij.2) true
    let orbit := get_orbit vt reps f0
    { st with face_indices := st.face_indices ++ [orbit],
              num_faces := st.num_faces + orbit.length }

/-- `BasePolytope.get_faces`, given the already computed vertex table. -/
def get_faces_aux {V : Type} (cfg : PolyConfig V) (vt : CosetTableResult)
    (p : PolyState V) : PolyState V :=
  (pairsLt cfg.n).foldl (face_step cfg vt) p

/-- `BasePolytope.get_faces`: reads `self.vtable`. -/
def get_faces {V : Type} (cfg : PolyConfig V) (p : PolyState V) : PolyState V :=
  match p.vtable with
  | none => p
  | some vt => get_faces_aux cfg vt p

/-- `BasePolytope.build_geometry`: vertices, then edges, then faces. -/
def build_geometry {V : Type} (cfg : PolyConfig V) (p : PolyState V) : PolyState V :=
  get_faces cfg (get_edges cfg (get_vertices cfg p))

end BasePolytope

namespace Snub

/-- The dictionary of `Snub.__init__` translating a pair of reflection
letters into rotation letters; `none` models a `KeyError`. -/
def pair_table (x y : Nat) : Option (List Nat) :=
  match x, y with
  | 0, 1 => some [0]
  | 0, 2 => some [0, 2]
  | 1, 0 => some [1]
  | 1, 2 => some [2]
  | 2, 0 => some [2, 0]
  | 2, 1 => some [3]
  | _, _ => none

/-- The extra-relation translation of `Snub.__init__`: double an
odd-length word, then translate adjacent pairs through `pair_table`,
concatenating the results. -/
def translate (extra_rel : List Nat) : Option (List Nat) :=
  let w := if extra_rel.length % 2 == 1 then extra_rel ++ extra_rel else extra_rel
  (adjacentPairs w).foldl
    (fun acc p =>
      match acc, pair_table p.1 p.2 with
      | some l, some t => some (l ++ t)
      | _, _ => none)
    (some [])

/-- The five base relations of `Snub.__init__`:
`r^p`, `s^q`, `(rs)^M02`, `r r⁻¹`, `s s⁻¹`. -/
def base_rels (M : Nat → Nat → Nat) : List Word :=
  [wordPow [0] (M 0 1), wordPow [2] (M 1 2), wordPow [0, 2] (M 0 2), [0, 1], [2, 3]]

/-- `Snub.symmetry_rels`: the base relations followed by the translated
extra relations (`none` when some translation hits a `KeyError`). -/
def symmetry_rels (M : Nat → Nat → Nat) (extras : List Word) : Option (List Word) :=
  extras.foldl
    (fun acc er =>
      match acc, translate er with
      | some rels, some r => some (rels ++ [r])
      | _, _ => none)
    (some (base_rels M))

/-- `self.symmetry_gens = (0, 1, 2, 3)` of `Snub.__init__`. -/
def gens : List Nat := [0, 1, 2, 3]

/-- `self.rotations` of `Snub.__init__`, in insertion order:
`{r: p, s: q, rs: M[0][2]}`. -/
def rotations (M : Nat → Nat → Nat) : List (Word × Nat) :=
  [([0], M 0 1), ([2], M 1 2), ([0, 2], M 0 2)]

/-- `Snub.transform`: letter 0 applies reflection 0 then reflection 1;
every other letter applies reflection 1 then reflection 2 (the source
tests only `g == 0`). -/
def transform {V : Type} (refl : Nat → V → V) (v : V) (w : Word) : V :=
  w.foldl (fun u g => if g == 0 then refl 1 (refl 0 u) else refl 2 (refl 1 u)) v

/-- The data a built `Snub` object carries: the Coxeter matrix, the
reflection transforms, the initial vertex, the final relation list of
`__init__`, and the enumeration oracle. -/
structure Config (V : Type) where
  M : Nat → Nat → Nat
  refl : Nat → V → V
  init_v : V
  rels : List Word
  enum : CosetEnum

/-- The coset table computed by `Snub.get_vertices` (trivial vertex
stabilizer, `coxeter=False`). -/
def vertex_table {V : Type} (cfg : Config V) : CosetTableResult :=
  cfg.enum gens cfg.rels [] false

/-- `Snub.get_vertices`. -/
def get_vertices {V : Type} (cfg : Config V) (p : PolyState V) : PolyState V :=
  { p with
    vtable := some (vertex_table cfg),
    vwords := (vertex_table cfg).words,
    num_vertices := (vertex_table cfg).words.length,
    vertices_coords := (vertex_table cfg).words.map (transform cfg.refl cfg.init_v) }

/-- The body of the loop of `Snub.get_edges` for a fundamental rotation
with its order. -/
def edge_step {V : Type} (cfg : Config V) (vt : CosetTableResult)
    (st : PolyState V) (rot : Word × Nat) : PolyState V :=
  let reps := if rot.2 == 2 then (cfg.enum gens cfg.rels [rot.1] false).words
              else st.vwords
  let e0 := [0, BasePolytope.move vt 0 rot.1]
  let orbit := BasePolytope.get_orbit vt reps e0
  { st with edge_indices := st.edge_indices ++ [orbit],
            num_edges := st.num_edges + orbit.length }

/-- `Snub.get_edges`, given the vertex table. -/
def get_edges_aux {V : Type} (cfg : Config V) (vt : CosetTableResult)
    (p : PolyState V) : PolyState V :=
  (rotations cfg.M).foldl (edge_step cfg vt) p

/-- `Snub.get_edges`. -/
def get_edges {V : Type} (cfg : Config V) (p : PolyState V) : PolyState V :=
  match p.vtable with
  | none => p
  | some vt => get_edges_aux cfg vt p

/-- The body of the rotation loop of `Snub.get_faces`. -/
def face_step {V : Type} (cfg : Config V) (vt : CosetTableResult)
    (st : PolyState V) (rot : Word × Nat) : PolyState V :=
  if decide (2 < rot.2) then
    let f0 := (List.range rot.2).map (fun k => BasePolytope.move vt 0 (wordPow rot.1 k))
    let reps := (cfg.enum gens cfg.rels [rot.1] false).words
    let orbit := BasePolytope.get_orbit vt reps f0
    { st with face_indices := st.face_indices ++ [orbit],
              num_faces := st.num_faces + orbit.length }
  else st

/-- `Snub.get_faces`, given the vertex table: the rotation faces, then
the special triangle `(v0, v0 s, v0 rs)` with trivial stabilizer. -/
def get_faces_aux {V : Type} (cfg : Config V) (vt : CosetTableResult)
    (p : PolyState V) : PolyState V :=
  let p1 := (rotations cfg.M).foldl (face_step cfg vt) p
  let triangle := [0, BasePolytope.move vt 0 [2], BasePolytope.move vt 0 [0, 2]]
  let orbit := BasePolytope.get_orbit vt p1.vwords triangle
  { p1 with face_indices := p1.face_indices ++ [orbit],
            num_faces := p1.num_faces + orbit.length }

/-- `Snub.get_faces`. -/
def get_faces {V : Type} (cfg : Config V) (p : PolyState V) : PolyState V :=
  match p.vtable with
  | none => p
  | some vt => get_faces_aux cfg vt p

/-- `build_geometry` as inherited by `Snub`. -/
def build_geometry {V : Type} (cfg : Config V) (p : PolyState V) : PolyState V :=
  get_faces cfg (get_edges cfg (get_vertices cfg p))

end Snub

namespace Snub24Cell

/-- `self.symmetry_gens = tuple(range(6))` of `Snub24Cell.__init__`. -/
def gens : List Nat := [0, 1, 2, 3, 4, 5]

/-- The nine relations of `Snub24Cell.__init__`. -/
def rels : List Word :=
  [[0, 0, 0], [2, 2, 2], [4, 4, 4],
   [0, 2, 0, 2], [0, 4, 0, 4], [3, 4, 3, 4],
   [0, 1], [2, 3], [4, 5]]

/-- `self.rotations` of `Snub24Cell.__init__`, in insertion order. -/
def rotations : List (Word × Nat) :=
  [([0], 3), ([2], 3), ([4], 3), ([0, 2], 2), ([0, 4], 2), ([3, 4], 2)]

/-- The dictionary lookup `self.rotations[rot]`. -/
def rotation_order (rot : Word) : Nat :=
  match rotations.find? (fun r => r.1 == rot) with
  | some r => r.2
  | none => 0

/-- `Snub24Cell.transform`: letter 0 applies reflections 0 then 1,
letter 2 applies 1 then 2, every other letter applies 1 then 3 (the
source tests only `g == 0` and `g == 2`). -/
def transform {V : Type} (refl : Nat → V → V) (v : V) (w : Word) : V :=
  w.foldl
    (fun u g =>
      if g == 0 then refl 1 (refl 0 u)
      else if g == 2 then refl 2 (refl 1 u)
      else refl 3 (refl 1 u)) v

/-- The data a built `Snub24Cell` object carries. -/
structure Config (V : Type) where
  refl : Nat → V → V
  init_v : V
  enum : CosetEnum

/-- The coset table computed by `Snub24Cell.get_vertices`. -/
def vertex_table {V : Type} (cfg : Config V) : CosetTableResult :=
  cfg.enum gens rels [] false

/-- `Snub24Cell.get_vertices`. -/
def get_vertices {V : Type} (cfg : Config V) (p : PolyState V) : PolyState V :=
  { p with
    vtable := some (vertex_table cfg),
    vwords := (vertex_table cfg).words,
    num_vertices := (vertex_table cfg).words.length,
    vertices_coords := (vertex_table cfg).words.map (transform cfg.refl cfg.init_v) }

/-- The body of the loop of `Snub24Cell.get_edges`. -/
def edge_step {V : Type} (cfg : Config V) (vt : CosetTableResult)
    (st : PolyState V) (rot : Word × Nat) : PolyState V :=
  let e0 := [0, BasePolytope.move vt 0 rot.1]
  let reps := if rot.2 == 2 then (cfg.enum gens rels [rot.1] false).words
              else st.vwords
  let orbit := BasePolytope.get_orbit vt reps e0
  { st with edge_indices := st.edge_indices ++ [orbit],
            num_edges := st.num_edges + orbit.length }

/-- `Snub24Cell.get_edges`, given the vertex table. -/
def get_edges_aux {V : Type} (cfg : Config V) (vt : CosetTableResult)
    (p : PolyState V) : PolyState V :=
  rotations.foldl (edge_step cfg vt) p

/-- `Snub24Cell.get_edges`. -/
def get_edges {V : Type} (cfg : Config V) (p : PolyState V) : PolyState V :=
  match p.vtable with
  | none => p
  | some vt => get_edges_aux cfg vt p

/-- The body of the first loop of `Snub24Cell.get_faces`, over the
rotations `r`, `s`, `t`. -/
def face_step {V : Type} (cfg : Config V) (vt : CosetTableResult)
    (st : PolyState V) (rot : Word) : PolyState V :=
  let order := rotation_order rot
  let f0 := (List.range order).map (fun k => BasePolytope.move vt 0 (wordPow rot k))
  let reps := (cfg.enum gens rels [rot] false).words
  let orbit := BasePolytope.get_orbit vt reps f0
  { st with face_indices := st.face_indices ++ [orbit],
            num_faces := st.num_faces + orbit.length }

/-- The body of the triangle loop of `Snub24Cell.get_faces`. -/
def tri_step {V : Type} (vt : CosetTableResult)
    (st : PolyState V) (tri : List Nat) : PolyState V :=
  let orbit := BasePolytope.get_orbit vt st.vwords tri
  { st with face_indices := st.face_indices ++ [orbit],
            num_faces := st.num_faces + orbit.length }

/-- `Snub24Cell.get_faces`, given the vertex table: the rotation faces
for `r`, `s`, `t`, then the four special triangles. -/
def get_faces_aux {V : Type} (cfg : Config V) (vt : CosetTableResult)
    (p : PolyState V) : PolyState V :=
  let p1 := ([[0], [2], [4]] : List Word).foldl (face_step cfg vt) p
  let tris : List (List Nat) :=
    [[0, BasePolytope.move vt 0 [2], BasePolytope.move vt 0 [0, 2]],
     [0, BasePolytope.move vt 0 [4], BasePolytope.move vt 0 [0, 4]],
     [0, BasePolytope.move vt 0 [2], BasePolytope.move vt 0 [5, 2]],
     [0, BasePolytope.move vt 0 [0, 2], BasePolytope.move vt 0 [5, 2]]]
  tris.foldl (tri_step vt) p1

/-- `Snub24Cell.get_faces`. -/
def get_faces {V : Type} (cfg : Config V) (p : PolyState V) : PolyState V :=
  match p.vtable with
  | none => p
  | some vt => get_faces_aux cfg vt p

/-- `build_geometry` as inherited by `Snub24Cell`. -/
def build_geometry {V : Type} (cfg : Config V) (p : PolyState V) : PolyState V :=
  get_faces cfg (get_edges cfg (get_vertices cfg p))

end Snub24Cell

namespace Polytope5D

/-- The length check of `Polytope5D.__init__`: `True` exactly when the
source raises its `ValueError` (the source tests
`len(coxeter_diagram) != 10 and len(init_dist) != 5`). -/
def length_check_raises (nd ni : Nat) : Bool :=
  nd != 10 && ni != 5

end Polytope5D

namespace Catalan3D

/-- The vector operations used by `Catalan3D.get_vertices`; `normalize`
is the external helper `helpers.normalize`, the others are the numpy
operations on coordinate vectors. -/
structure VecOps (V : Type) where
  add : V → V → V
  zero : V
  dot : V → V → ℚ
  smul : ℚ → V → V
  normalize : V → V

/-- The fields of a `Catalan3D` object: the source polyhedron and the
two arrays set by `__init__`. -/
structure State (V : Type) where
  P : PolyState V
  vertices_coords : List V
  face_indices : List (List (List Nat))

/-- `Catalan3D.__init__`. -/
def init_state {V : Type} (P : PolyState V) : State V :=
  { P := P, vertices_coords := [], face_indices := [] }

/-- The dual vertex computed from one face of `P` in
`Catalan3D.get_vertices`. -/
def dual_vertex {V : Type} (ops : VecOps V) (coords : List V) (face : List Nat) : V :=
  let verts := face.map (fun ind => coords.getD ind ops.zero)
  let cen := verts.foldl ops.add ops.zero
  let normal := ops.normalize cen
  let weights := (verts.map (fun v => ops.dot v normal)).foldl (fun a b => a + b) 0
                   / (face.length : ℚ)
  ops.smul weights⁻¹ normal

/-- `Catalan3D.get_vertices`: one dual vertex per face of `P`, in face
group order. -/
def get_vertices {V : Type} (ops : VecOps V) (P : PolyState V) : List V :=
  P.face_indices.flatMap (fun face_group =>
    face_group.map (dual_vertex ops P.vertices_coords))

/-- `contain_edge` of `Catalan3D.get_faces`. -/
def contain_edge (f : List Nat) (e : Nat × Nat) : Bool :=
  (f.zip (f.drop 1 ++ f.take 1)).any (fun p => e == p || e == (p.2, p.1))

/-- `is_adjacent` of `Catalan3D.get_faces`. -/
def is_adjacent (f1 f2 : List Nat) : Bool :=
  (f1.zip (f1.drop 1 ++ f1.take 1)).any (fun e => contain_edge f2 e)

/-- One pass of the `while` loop of `Catalan3D.get_faces`: scan all
faces meeting the vertex, appending each one adjacent to the current
face and not yet in the ring. -/
def ring_pass (faces_unordered : List (Nat × List Nat))
    (s : List Nat × List Nat) : List Nat × List Nat :=
  faces_unordered.foldl
    (fun s2 p =>
      if !s2.1.contains p.1 && is_adjacent s2.2 p.2 then (s2.1 ++ [p.1], p.2)
      else s2)
    s

/-- The `while` loop of `Catalan3D.get_faces`, with fuel bounding the
number of passes: the source loops until the ring is complete, and each
productive pass adds at least one face (a pass that adds nothing makes
the source loop forever, so the fuel never cuts a terminating run
short). -/
def ring_loop (faces_unordered : List (Nat × List Nat)) :
    Nat → List Nat × List Nat → List Nat
  | 0, s => s.1
  | fuel + 1, s =>
    if s.1.length < faces_unordered.length then
      ring_loop faces_unordered fuel (ring_pass faces_unordered s)
    else s.1

/-- The dual face around vertex `k`: gather the faces of `P` containing
`k` and order them into a ring (the empty case models the source raising
`IndexError` on `faces_unordered[0]`). -/
def face_at (flat : List (List Nat)) (k : Nat) : List Nat :=
  let faces_unordered := flat.enum.filter (fun p => p.2.contains k)
  match faces_unordered with
  | [] => []
  | (i0, f0) :: _ => ring_loop faces_unordered faces_unordered.length ([i0], f0)

/-- `Catalan3D.get_faces`: one dual face per vertex of `P`. -/
def get_faces {V : Type} (P : PolyState V) : List (List Nat) :=
  let flat := P.face_indices.flatMap id
  (List.range P.vertices_coords.length).map (face_at flat)

/-- `Catalan3D.build_geometry`: build `P`, then append the dual
vertices and the single group of dual faces. -/
def build_geometry {V : Type} (ops : VecOps V)
    (buildP : PolyState V → PolyState V) (c : State V) : State V :=
  let P2 := buildP c.P
  { P := P2,
    vertices_coords := c.vertices_coords ++ get_vertices ops P2,
    face_indices := c.face_indices ++ [get_faces P2] }

end Catalan3D

/-- All integers inside a list of index orbits are below the bound. -/
def AllIdxLt (xss : List (List (List Nat))) (n : Nat) : Prop :=
  ∀ o ∈ xss, ∀ f ∈ o, ∀ v ∈ f, v < n

instance (xss : List (List (List Nat))) (n : Nat) : Decidable (AllIdxLt xss n) := by
  unfold AllIdxLt; infer_instance

/-- The part of the Coset Table output contract the builders rely on:
there is at least one coset (the identity coset 0), and the action map
sends live cosets to live cosets. -/
def TableContract (vt : CosetTableResult) : Prop :=
  0 < vt.words.length ∧ ∀ c g, c < vt.words.length → vt.next c g < vt.words.length

/-- A one-coset table: every action returns coset 0, the only word is
the empty word. -/
def vt0 : CosetTableResult := { next := fun _ _ => 0, words := [[]] }

/-- An enumeration oracle that always returns the one-coset table. -/
def toyEnum : CosetEnum := fun _ _ _ _ => vt0

/-- A symmetric Coxeter matrix with all off-diagonal orders 2. -/
def MA : Nat → Nat → Nat := fun a b => if a = b then 1 else 2

/-- A symmetric Coxeter matrix with all off-diagonal orders 3. -/
def MB : Nat → Nat → Nat := fun a b => if a = b then 1 else 3

/-- All mirrors active. -/
def activeAll : Nat → Bool := fun _ => true

/-- Only mirror 0 active. -/
def activeOne : Nat → Bool := fun k => k == 0

/-- No mirror active. -/
def activeNone : Nat → Bool := fun _ => false

/-- A small concrete polyhedron configuration with no active mirror. -/
def cfg0 : PolyConfig Unit :=
  { n := 3, M := MA, active := activeNone, refl := fun _ u => u,
    init_v := (), extras := [], enum := toyEnum }

/-- A small concrete polyhedron configuration with all mirrors active. -/
def cfgA : PolyConfig Unit :=
  { n := 3, M := MB, active := activeAll, refl := fun _ u => u,
    init_v := (), extras := [], enum := toyEnum }

/-- A small concrete snub configuration. -/
def scfgA : Snub.Config Unit :=
  { M := MB, refl := fun _ u => u, init_v := (), rels := [], enum := toyEnum }

/-- A small concrete snub 24-cell configuration. -/
def tcfgA : Snub24Cell.Config Unit :=
  { refl := fun _ u => u, init_v := (), enum := toyEnum }

/-- Trivial vector operations on `Unit`. -/
def opsU : Catalan3D.VecOps Unit :=
  { add := fun _ _ => (), zero := (), dot := fun _ _ => 0,
    smul := fun _ _ => (), normalize := fun _ => () }

/-- The reflections about the three coordinate planes of `ℤ³` (orthogonal
involutions, i.e. genuine reflection matrices). -/
def reflDiag : Nat → ℤ × ℤ × ℤ → ℤ × ℤ × ℤ := fun g v =>
  match g with
  | 0 => (-v.1, v.2.1, v.2.2)
  | 1 => (v.1, -v.2.1, v.2.2)
  | _ => (v.1, v.2.1, -v.2.2)

/-- Application of an ordered pair of reflections, first component
first: the oriented rotation `R_i R_j` acting on a row vector. -/
def applyRotPair {V : Type} (refl : Nat → V → V) (p : Nat × Nat) (u : V) : V :=
  refl p.2 (refl p.1 u)

/-- The letter-to-reflection-pair table that `Snub.transform` actually
implements. -/
def snubLetterPair (g : Nat) : Nat × Nat :=
  if g = 0 then (0, 1) else (1, 2)

/-- The letter-to-reflection-pair table that `Snub24Cell.transform`
actually implements. -/
def snub24LetterPair (g : Nat) : Nat × Nat :=
  if g = 0 then (0, 1) else if g = 2 then (1, 2) else (1, 3)

/-- The counter invariant of claim C10: each counter equals the summed
orbit lengths of the corresponding index list. -/
def CountOk {V : Type} (st : PolyState V) : Prop :=
  st.num_edges = (st.edge_indices.map List.length).sum ∧
  st.num_faces = (st.face_indices.map List.length).sum

/-- The bound invariant of claim C8 for a vertex-count bound `n`. -/
def BoundOk {V : Type} (n : Nat) (st : PolyState V) : Prop :=
  st.num_vertices = n ∧ AllIdxLt st.edge_indices n ∧ AllIdxLt st.face_indices n

theorem foldl_preserves {σ α : Type _} (P : σ → Prop) (f : σ → α → σ)
    (hstep : ∀ s a, P s → P (f s a)) :
    ∀ (l : List α) (s : σ), P s → P (l.foldl f s) := by
  intro l
  induction l with
  | nil => intro s hs; exact hs
  | cons a l ih => intro s hs; exact ih (f s a) (hstep s a hs)

theorem foldl_append_init {α β : Type _} (f : α → List β) :
    ∀ (l : List α) (ini : List β),
      l.foldl (fun acc a => acc ++ f a) ini = ini ++ (l.map f).flatten := by
  intro l
  induction l with
  | nil => intro ini; simp
  | cons a l ih => intro ini; simp [ih, List.append_assoc]

theorem flatten_map_singleton {α β : Type _} (f : α → β) :
    ∀ l : List α, (l.map (fun a => [f a])).flatten = l.map f := by
  intro l
  induction l with
  | nil => simp
  | cons a l ih => simp [ih]

theorem sum_map_const_two {α : Type _} :
    ∀ l : List α, (l.map (fun _ => (2 : Nat))).sum = 2 * l.length := by
  intro l
  induction l with
  | nil => simp
  | cons a l ih => simp [ih]; omega

theorem foldl_congr_fun {σ α : Type _} (f g : σ → α → σ)
    (h : ∀ u a, f u a = g u a) :
    ∀ (l : List α) (v : σ), l.foldl f v = l.foldl g v := by
  intro l
  induction l with
  | nil => intro v; rfl
  | cons a l ih => intro v; rw [List.foldl_cons, List.foldl_cons, h, ih]

theorem move_lt (vt : CosetTableResult) {n : Nat}
    (hnext : ∀ c g, c < n → vt.next c g < n) :
    ∀ (w : Word) (v : Nat), v < n → BasePolytope.move vt v w < n := by
  intro w
  induction w with
  | nil => intro v hv; exact hv
  | cons g w ih =>
    intro v hv
    exact ih (vt.next v g) (hnext v g hv)

theorem get_orbit_lt (vt : CosetTableResult) {n : Nat}
    (hnext : ∀ c g, c < n → vt.next c g < n)
    (reps : List Word) (base : List Nat) (hbase : ∀ v ∈ base, v < n) :
    ∀ l ∈ BasePolytope.get_orbit vt reps base, ∀ x ∈ l, x < n := by
  intro l hl x hx
  rcases List.mem_map.1 hl with ⟨w, _, rfl⟩
  rcases List.mem_map.1 hx with ⟨v, hv, rfl⟩
  exact move_lt vt hnext w v (hbase v hv)

theorem allIdxLt_snoc {xss : List (List (List Nat))} {o : List (List Nat)} {n : Nat}
    (h : AllIdxLt xss n) (ho : ∀ f ∈ o, ∀ v ∈ f, v < n) :
    AllIdxLt (xss ++ [o]) n := by
  intro o2 ho2
  rcases List.mem_append.1 ho2 with h1 | h2
  · exact h o2 h1
  · rcases List.mem_singleton.1 h2 with rfl
    exact ho

theorem foldl_preserves_mem {σ α : Type _} (P : σ → Prop) (f : σ → α → σ) :
    ∀ (l : List α), (∀ s a, a ∈ l → P s → P (f s a)) →
      ∀ (s : σ), P s → P (l.foldl f s) := by
  intro l
  induction l with
  | nil => intro _ s hs; exact hs
  | cons a l ih =>
    intro hstep s hs
    exact ih (fun s2 a2 ha2 h2 => hstep s2 a2 (List.mem_cons_of_mem a ha2) h2)
      (f s a) (hstep s a (List.mem_cons_self a l) hs)

theorem countOk_snoc_edge {V : Type} (st : PolyState V) (orbit : List (List Nat))
    (h : CountOk st) :
    CountOk { st with edge_indices := st.edge_indices ++ [orbit],
                      num_edges := st.num_edges + orbit.length } := by
  obtain ⟨h1, h2⟩ := h
  refine ⟨?_, h2⟩
  simp [h1]

theorem countOk_snoc_face {V : Type} (st : PolyState V) (orbit : List (List Nat))
    (h : CountOk st) :
    CountOk { st with face_indices := st.face_indices ++ [orbit],
                      num_faces := st.num_faces + orbit.length } := by
  obtain ⟨h1, h2⟩ := h
  refine ⟨h1, ?_⟩
  simp [h2]

theorem boundOk_snoc_edge {V : Type} {n : Nat} (st : PolyState V)
    (orbit : List (List Nat)) (h : BoundOk n st)
    (ho : ∀ f ∈ orbit, ∀ v ∈ f, v < n) :
    BoundOk n { st with edge_indices := st.edge_indices ++ [orbit],
                        num_edges := st.num_edges + orbit.length } :=
  ⟨h.1, allIdxLt_snoc h.2.1 ho, h.2.2⟩

theorem boundOk_snoc_face {V : Type} {n : Nat} (st : PolyState V)
    (orbit : List (List Nat)) (h : BoundOk n st)
    (ho : ∀ f ∈ orbit, ∀ v ∈ f, v < n) :
    BoundOk n { st with face_indices := st.face_indices ++ [orbit],
                        num_faces := st.num_faces + orbit.length } :=
  ⟨h.1, h.2.1, allIdxLt_snoc h.2.2 ho⟩

theorem face_base_lt (M : Nat → Nat → Nat) (active : Nat → Bool)
    (vt : CosetTableResult) (i j : Nat) {n : Nat}
    (hnext : ∀ c g, c < n → vt.next c g < n) (h0 : 0 < n) :
    ∀ l, BasePolytope.face_base M active vt i j = some l → ∀ v ∈ l, v < n := by
  intro l hl
  unfold BasePolytope.face_base at hl
  split at hl
  · rcases Option.some_injective _ hl with rfl
    refine foldl_preserves (fun (l2 : List Nat) => ∀ v ∈ l2, v < n) _ ?_ _ _ (by simp)
    intro l2 k hl2 v hv
    rcases List.mem_append.1 hv with h1 | h2
    · exact hl2 v h1
    · rcases List.mem_cons.1 h2 with rfl | h2
      · exact move_lt vt hnext _ 0 h0
      rcases List.mem_cons.1 h2 with rfl | h2
      · exact move_lt vt hnext _ 0 h0
      · exact absurd h2 (List.not_mem_nil v)
  · split at hl
    · rcases Option.some_injective _ hl with rfl
      refine foldl_preserves (fun (l2 : List Nat) => ∀ v ∈ l2, v < n) _ ?_ _ _ (by simp)
      intro l2 k hl2 v hv
      rcases List.mem_append.1 hv with h1 | h2
      · exact hl2 v h1
      · rcases List.mem_cons.1 h2 with rfl | h2
        · exact move_lt vt hnext _ 0 h0
        · exact absurd h2 (List.not_mem_nil v)
    · cases hl

theorem edge_base_lt {n : Nat} (vt : CosetTableResult)
    (hnext : ∀ c g, c < n → vt.next c g < n) (h0 : 0 < n) (w : Word) :
    ∀ v ∈ [0, BasePolytope.move vt 0 w], v < n := by
  intro v hv
  rcases List.mem_cons.1 hv with rfl | hv
  · exact h0
  rcases List.mem_cons.1 hv with rfl | hv
  · exact move_lt vt hnext w 0 h0
  · exact absurd hv (List.not_mem_nil v)

theorem edge_step_countOk {V : Type} (cfg : PolyConfig V) (vt : CosetTableResult)
    (st : PolyState V) (i : Nat) (h : CountOk st) :
    CountOk (BasePolytope.edge_step cfg vt st i) := by
  unfold BasePolytope.edge_step
  split
  · exact countOk_snoc_edge st _ h
  · exact h

theorem face_step_countOk {V : Type} (cfg : PolyConfig V) (vt : CosetTableResult)
    (st : PolyState V) (ij : Nat × Nat) (h : CountOk st) :
    CountOk (BasePolytope.face_step cfg vt st ij) := by
  unfold BasePolytope.face_step
  split
  · exact h
  · exact countOk_snoc_face st _ h

theorem edge_step_boundOk {V : Type} (cfg : PolyConfig V) (vt : CosetTableResult)
    {n : Nat} (hnext : ∀ c g, c < n → vt.next c g < n) (h0 : 0 < n)
    (st : PolyState V) (i : Nat) (h : BoundOk n st) :
    BoundOk n (BasePolytope.edge_step cfg vt st i) := by
  unfold BasePolytope.edge_step
  split
  · exact boundOk_snoc_edge st _ h
      (get_orbit_lt vt hnext _ _ (edge_base_lt vt hnext h0 [i]))
  · exact h

theorem face_step_boundOk {V : Type} (cfg : PolyConfig V) (vt : CosetTableResult)
    {n : Nat} (hnext : ∀ c g, c < n → vt.next c g < n) (h0 : 0 < n)
    (st : PolyState V) (ij : Nat × Nat) (h : BoundOk n st) :
    BoundOk n (BasePolytope.face_step cfg vt st ij) := by
  unfold BasePolytope.face_step
  split
  · exact h
  · next f0 heq =>
    exact boundOk_snoc_face st _ h
      (get_orbit_lt vt hnext _ _ (face_base_lt cfg.M cfg.active vt ij.1 ij.2 hnext h0 f0 heq))

theorem snub_edge_step_countOk {V : Type} (cfg : Snub.Config V) (vt : CosetTableResult)
    (st : PolyState V) (rot : Word × Nat) (h : CountOk st) :
    CountOk (Snub.edge_step cfg vt st rot) :=
  countOk_snoc_edge st _ h

theorem snub_edge_step_boundOk {V : Type} (cfg : Snub.Config V) (vt : CosetTableResult)
    {n : Nat} (hnext : ∀ c g, c < n → vt.next c g < n) (h0 : 0 < n)
    (st : PolyState V) (rot : Word × Nat) (h : BoundOk n st) :
    BoundOk n (Snub.edge_step cfg vt st rot) :=
  boundOk_snoc_edge st _ h
    (get_orbit_lt vt hnext _ _ (edge_base_lt vt hnext h0 rot.1))

theorem snub_face_step_countOk {V : Type} (cfg : Snub.Config V) (vt : CosetTableResult)
    (st : PolyState V) (rot : Word × Nat) (h : CountOk st) :
    CountOk (Snub.face_step cfg vt st rot) := by
  unfold Snub.face_step
  split
  · exact countOk_snoc_face st _ h
  · exact h

theorem snub_face_step_boundOk {V : Type} (cfg : Snub.Config V) (vt : CosetTableResult)
    {n : Nat} (hnext : ∀ c g, c < n → vt.next c g < n) (h0 : 0 < n)
    (st : PolyState V) (rot : Word × Nat) (h : BoundOk n st) :
    BoundOk n (Snub.face_step cfg vt st rot) := by
  unfold Snub.face_step
  split
  · refine boundOk_snoc_face st _ h (get_orbit_lt vt hnext _ _ ?_)
    intro v hv
    rcases List.mem_map.1 hv with ⟨k, _, rfl⟩
    exact move_lt vt hnext _ 0 h0
  · exact h

theorem snub24_edge_step_countOk {V : Type} (cfg : Snub24Cell.Config V)
    (vt : CosetTableResult) (st : PolyState V) (rot : Word × Nat) (h : CountOk st) :
    CountOk (Snub24Cell.edge_step cfg vt st rot) :=
  countOk_snoc_edge st _ h

theorem snub24_edge_step_boundOk {V : Type} (cfg : Snub24Cell.Config V)
    (vt : CosetTableResult) {n : Nat}
    (hnext : ∀ c g, c < n → vt.next c g < n) (h0 : 0 < n)
    (st : PolyState V) (rot : Word × Nat) (h : BoundOk n st) :
    BoundOk n (Snub24Cell.edge_step cfg vt st rot) :=
  boundOk_snoc_edge st _ h
    (get_orbit_lt vt hnext _ _ (edge_base_lt vt hnext h0 rot.1))

theorem snub24_face_step_countOk {V : Type} (cfg : Snub24Cell.Config V)
    (vt : CosetTableResult) (st : PolyState V) (rot : Word) (h : CountOk st) :
    CountOk (Snub24Cell.face_step cfg vt st rot) :=
  countOk_snoc_face st _ h

theorem snub24_face_step_boundOk {V : Type} (cfg : Snub24Cell.Config V)
    (vt : CosetTableResult) {n : Nat}
    (hnext : ∀ c g, c < n → vt.next c g < n) (h0 : 0 < n)
    (st : PolyState V) (rot : Word) (h : BoundOk n st) :
    BoundOk n (Snub24Cell.face_step cfg vt st rot) := by
  refine boundOk_snoc_face st _ h (get_orbit_lt vt hnext _ _ ?_)
  intro v hv
  rcases List.mem_map.1 hv with ⟨k, _, rfl⟩
  exact move_lt vt hnext _ 0 h0

theorem tri_step_countOk {V : Type} (vt : CosetTableResult)
    (st : PolyState V) (tri : List Nat) (h : CountOk st) :
    CountOk (Snub24Cell.tri_step vt st tri) :=
  countOk_snoc_face st _ h

theorem tri_step_boundOk {V : Type} (vt : CosetTableResult) {n : Nat}
    (hnext : ∀ c g, c < n → vt.next c g < n)
    (st : PolyState V) (tri : List Nat) (htri : ∀ v ∈ tri, v < n)
    (h : BoundOk n st) :
    BoundOk n (Snub24Cell.tri_step vt st tri) :=
  boundOk_snoc_face st _ h (get_orbit_lt vt hnext _ _ htri)

theorem tri_lt {n : Nat} (vt : CosetTableResult)
    (hnext : ∀ c g, c < n → vt.next c g < n) (h0 : 0 < n) (w1 w2 : Word) :
    ∀ v ∈ [0, BasePolytope.move vt 0 w1, BasePolytope.move vt 0 w2], v < n := by
  intro v hv
  rcases List.mem_cons.1 hv with rfl | hv
  · exact h0
  rcases List.mem_cons.1 hv with rfl | hv
  · exact move_lt vt hnext w1 0 h0
  rcases List.mem_cons.1 hv with rfl | hv
  · exact move_lt vt hnext w2 0 h0
  · exact absurd hv (List.not_mem_nil v)

theorem get_edges_aux_vtable {V : Type} (cfg : PolyConfig V) (vt : CosetTableResult)
    (p : PolyState V) : (BasePolytope.get_edges_aux cfg vt p).vtable = p.vtable := by
  unfold BasePolytope.get_edges_aux
  refine foldl_preserves (fun st => st.vtable = p.vtable) _ ?_ _ p rfl
  intro s i hs
  unfold BasePolytope.edge_step
  split
  · exact hs
  · exact hs

theorem snub_get_edges_aux_vtable {V : Type} (cfg : Snub.Config V)
    (vt : CosetTableResult) (p : PolyState V) :
    (Snub.get_edges_aux cfg vt p).vtable = p.vtable := by
  unfold Snub.get_edges_aux
  exact foldl_preserves (fun (st : PolyState V) => st.vtable = p.vtable)
    (Snub.edge_step cfg vt) (fun s r hs => hs) _ p rfl

theorem snub24_get_edges_aux_vtable {V : Type} (cfg : Snub24Cell.Config V)
    (vt : CosetTableResult) (p : PolyState V) :
    (Snub24Cell.get_edges_aux cfg vt p).vtable = p.vtable := by
  unfold Snub24Cell.get_edges_aux
  exact foldl_preserves (fun (st : PolyState V) => st.vtable = p.vtable)
    (Snub24Cell.edge_step cfg vt) (fun s r hs => hs) _ p rfl

theorem get_edges_of_some {V : Type} (cfg : PolyConfig V) (p : PolyState V)
    (vt : CosetTableResult) (h : p.vtable = some vt) :
    BasePolytope.get_edges cfg p = BasePolytope.get_edges_aux cfg vt p := by
  unfold BasePolytope.get_edges
  rw [h]

theorem get_faces_of_some {V : Type} (cfg : PolyConfig V) (p : PolyState V)
    (vt : CosetTableResult) (h : p.vtable = some vt) :
    BasePolytope.get_faces cfg p = BasePolytope.get_faces_aux cfg vt p := by
  unfold BasePolytope.get_faces
  rw [h]

theorem snub_get_edges_of_some {V : Type} (cfg : Snub.Config V) (p : PolyState V)
    (vt : CosetTableResult) (h : p.vtable = some vt) :
    Snub.get_edges cfg p = Snub.get_edges_aux cfg vt p := by
  unfold Snub.get_edges
  rw [h]

theorem snub_get_faces_of_some {V : Type} (cfg : Snub.Config V) (p : PolyState V)
    (vt : CosetTableResult) (h : p.vtable = some vt) :
    Snub.get_faces cfg p = Snub.get_faces_aux cfg vt p := by
  unfold Snub.get_faces
  rw [h]

theorem snub24_get_edges_of_some {V : Type} (cfg : Snub24Cell.Config V)
    (p : PolyState V) (vt : CosetTableResult) (h : p.vtable = some vt) :
    Snub24Cell.get_edges cfg p = Snub24Cell.get_edges_aux cfg vt p := by
  unfold Snub24Cell.get_edges
  rw [h]

theorem snub24_get_faces_of_some {V : Type} (cfg : Snub24Cell.Config V)
    (p : PolyState V) (vt : CosetTableResult) (h : p.vtable = some vt) :
    Snub24Cell.get_faces cfg p = Snub24Cell.get_faces_aux cfg vt p := by
  unfold Snub24Cell.get_faces
  rw [h]

theorem get_edges_aux_countOk {V : Type} (cfg : PolyConfig V) (vt : CosetTableResult)
    (p : PolyState V) (h : CountOk p) : CountOk (BasePolytope.get_edges_aux cfg vt p) := by
  unfold BasePolytope.get_edges_aux
  exact foldl_preserves CountOk (BasePolytope.edge_step cfg vt)
    (fun s i hs => edge_step_countOk cfg vt s i hs) _ p h

theorem get_faces_aux_countOk {V : Type} (cfg : PolyConfig V) (vt : CosetTableResult)
    (p : PolyState V) (h : CountOk p) : CountOk (BasePolytope.get_faces_aux cfg vt p) := by
  unfold BasePolytope.get_faces_aux
  exact foldl_preserves CountOk (BasePolytope.face_step cfg vt)
    (fun s ij hs => face_step_countOk cfg vt s ij hs) _ p h

theorem snub_get_edges_aux_countOk {V : Type} (cfg : Snub.Config V)
    (vt : CosetTableResult) (p : PolyState V) (h : CountOk p) :
    CountOk (Snub.get_edges_aux cfg vt p) := by
  unfold Snub.get_edges_aux
  exact foldl_preserves CountOk (Snub.edge_step cfg vt)
    (fun s r hs => snub_edge_step_countOk cfg vt s r hs) _ p h

theorem snub_get_faces_aux_countOk {V : Type} (cfg : Snub.Config V)
    (vt : CosetTableResult) (p : PolyState V) (h : CountOk p) :
    CountOk (Snub.get_faces_aux cfg vt p) := by
  unfold Snub.get_faces_aux
  exact countOk_snoc_face _ _
    (foldl_preserves CountOk (Snub.face_step cfg vt)
      (fun s r hs => snub_face_step_countOk cfg vt s r hs) _ p h)

theorem snub24_get_edges_aux_countOk {V : Type} (cfg : Snub24Cell.Config V)
    (vt : CosetTableResult) (p : PolyState V) (h : CountOk p) :
    CountOk (Snub24Cell.get_edges_aux cfg vt p) := by
  unfold Snub24Cell.get_edges_aux
  exact foldl_preserves CountOk (Snub24Cell.edge_step cfg vt)
    (fun s r hs => snub24_edge_step_countOk cfg vt s r hs) _ p h

theorem snub24_get_faces_aux_countOk {V : Type} (cfg : Snub24Cell.Config V)
    (vt : CosetTableResult) (p : PolyState V) (h : CountOk p) :
    CountOk (Snub24Cell.get_faces_aux cfg vt p) := by
  unfold Snub24Cell.get_faces_aux
  exact foldl_preserves CountOk (Snub24Cell.tri_step vt)
    (fun s t hs => tri_step_countOk vt s t hs) _ _
    (foldl_preserves CountOk (Snub24Cell.face_step cfg vt)
      (fun s r hs => snub24_face_step_countOk cfg vt s r hs) _ p h)

theorem get_edges_aux_boundOk {V : Type} (cfg : PolyConfig V) (vt : CosetTableResult)
    {n : Nat} (hnext : ∀ c g, c < n → vt.next c g < n) (h0 : 0 < n)
    (p : PolyState V) (h : BoundOk n p) : BoundOk n (BasePolytope.get_edges_aux cfg vt p) := by
  unfold BasePolytope.get_edges_aux
  exact foldl_preserves (BoundOk n) (BasePolytope.edge_step cfg vt)
    (fun s i hs => edge_step_boundOk cfg vt hnext h0 s i hs) _ p h

theorem get_faces_aux_boundOk {V : Type} (cfg : PolyConfig V) (vt : CosetTableResult)
    {n : Nat} (hnext : ∀ c g, c < n → vt.next c g < n) (h0 : 0 < n)
    (p : PolyState V) (h : BoundOk n p) : BoundOk n (BasePolytope.get_faces_aux cfg vt p) := by
  unfold BasePolytope.get_faces_aux
  exact foldl_preserves (BoundOk n) (BasePolytope.face_step cfg vt)
    (fun s ij hs => face_step_boundOk cfg vt hnext h0 s ij hs) _ p h

theorem snub_get_edges_aux_boundOk {V : Type} (cfg : Snub.Config V)
    (vt : CosetTableResult) {n : Nat}
    (hnext : ∀ c g, c < n → vt.next c g < n) (h0 : 0 < n)
    (p : PolyState V) (h : BoundOk n p) : BoundOk n (Snub.get_edges_aux cfg vt p) := by
  unfold Snub.get_edges_aux
  exact foldl_preserves (BoundOk n) (Snub.edge_step cfg vt)
    (fun s r hs => snub_edge_step_boundOk cfg vt hnext h0 s r hs) _ p h

theorem snub_get_faces_aux_boundOk {V : Type} (cfg : Snub.Config V)
    (vt : CosetTableResult) {n : Nat}
    (hnext : ∀ c g, c < n → vt.next c g < n) (h0 : 0 < n)
    (p : PolyState V) (h : BoundOk n p) : BoundOk n (Snub.get_faces_aux cfg vt p) := by
  unfold Snub.get_faces_aux
  exact boundOk_snoc_face _ _
    (foldl_preserves (BoundOk n) (Snub.face_step cfg vt)
      (fun s r hs => snub_face_step_boundOk cfg vt hnext h0 s r hs) _ p h)
    (get_orbit_lt vt hnext _ _ (tri_lt vt hnext h0 [2] [0, 2]))

theorem snub24_get_edges_aux_boundOk {V : Type} (cfg : Snub24Cell.Config V)
    (vt : CosetTableResult) {n : Nat}
    (hnext : ∀ c g, c < n → vt.next c g < n) (h0 : 0 < n)
    (p : PolyState V) (h : BoundOk n p) : BoundOk n (Snub24Cell.get_edges_aux cfg vt p) := by
  unfold Snub24Cell.get_edges_aux
  exact foldl_preserves (BoundOk n) (Snub24Cell.edge_step cfg vt)
    (fun s r hs => snub24_edge_step_boundOk cfg vt hnext h0 s r hs) _ p h

theorem snub24_get_faces_aux_boundOk {V : Type} (cfg : Snub24Cell.Config V)
    (vt : CosetTableResult) {n : Nat}
    (hnext : ∀ c g, c < n → vt.next c g < n) (h0 : 0 < n)
    (p : PolyState V) (h : BoundOk n p) : BoundOk n (Snub24Cell.get_faces_aux cfg vt p) := by
  unfold Snub24Cell.get_faces_aux
  refine foldl_preserves_mem (BoundOk n) (Snub24Cell.tri_step vt) _ ?_ _
    (foldl_preserves (BoundOk n) (Snub24Cell.face_step cfg vt)
      (fun s r hs => snub24_face_step_boundOk cfg vt hnext h0 s r hs) _ p h)
  intro s t ht hs
  refine tri_step_boundOk vt hnext s t ?_ hs
  rcases List.mem_cons.1 ht with rfl | ht
  · exact tri_lt vt hnext h0 [2] [0, 2]
  rcases List.mem_cons.1 ht with rfl | ht
  · exact tri_lt vt hnext h0 [4] [0, 4]
  rcases List.mem_cons.1 ht with rfl | ht
  · exact tri_lt vt hnext h0 [2] [5, 2]
  rcases List.mem_cons.1 ht with rfl | ht
  · exact tri_lt vt hnext h0 [0, 2] [5, 2]
  · exact absurd ht (List.not_mem_nil t)

theorem base_build_eq {V : Type} (cfg : PolyConfig V) (p : PolyState V) :
    BasePolytope.build_geometry cfg p =
      BasePolytope.get_faces_aux cfg (BasePolytope.vertex_table cfg)
        (BasePolytope.get_edges_aux cfg (BasePolytope.vertex_table cfg)
          (BasePolytope.get_vertices cfg p)) := by
  unfold BasePolytope.build_geometry
  rw [get_edges_of_some cfg _ (BasePolytope.vertex_table cfg) rfl,
    get_faces_of_some cfg _ (BasePolytope.vertex_table cfg)
      (by rw [get_edges_aux_vtable]; rfl)]

theorem snub_build_eq {V : Type} (cfg : Snub.Config V) (p : PolyState V) :
    Snub.build_geometry cfg p =
      Snub.get_faces_aux cfg (Snub.vertex_table cfg)
        (Snub.get_edges_aux cfg (Snub.vertex_table cfg)
          (Snub.get_vertices cfg p)) := by
  unfold Snub.build_geometry
  rw [snub_get_edges_of_some cfg _ (Snub.vertex_table cfg) rfl,
    snub_get_faces_of_some cfg _ (Snub.vertex_table cfg)
      (by rw [snub_get_edges_aux_vtable]; rfl)]

theorem snub24_build_eq {V : Type} (cfg : Snub24Cell.Config V) (p : PolyState V) :
    Snub24Cell.build_geometry cfg p =
      Snub24Cell.get_faces_aux cfg (Snub24Cell.vertex_table cfg)
        (Snub24Cell.get_edges_aux cfg (Snub24Cell.vertex_table cfg)
          (Snub24Cell.get_vertices cfg p)) := by
  unfold Snub24Cell.build_geometry
  rw [snub24_get_edges_of_some cfg _ (Snub24Cell.vertex_table cfg) rfl,
    snub24_get_faces_of_some cfg _ (Snub24Cell.vertex_table cfg)
      (by rw [snub24_get_edges_aux_vtable]; rfl)]

/-- Claim C1, evidence of the code bug: at the failing input, the
reflection-letter pair `(2, 0)`, the translation of `Snub.__init__` emits
the rotation letters `[2, 0]` (the word `s r`), not `[3, 1]` (the word
`s⁻¹ r⁻¹`) that the table of the claim prescribes.  The other five table
entries expand exactly to their reflection pair, and so does `[3, 1]` for
`(2, 0)` (`ρ₂ρ₁ρ₁ρ₀ = ρ₂ρ₀`), whereas `[2, 0]` expands to `ρ₁ρ₂ρ₀ρ₁`,
a different group element in general. -/
theorem c1_snub_translate_pair20 :
    Snub.pair_table 2 0 = some [2, 0] ∧
    Snub.translate [2, 0] = some [2, 0] ∧
    Snub.pair_table 2 0 ≠ some [3, 1] := by
  refine ⟨rfl, rfl, ?_⟩
  decide

/-- Claim C2, evidence of the code bug: the length check of
`Polytope5D.__init__` tests `len(coxeter_diagram) != 10 and
len(init_dist) != 5`, so for a diagram of length 9 with distances of
length 5 it does not raise although the diagram length differs from 10;
it raises only when both lengths mismatch. -/
theorem c2_polytope5d_length_check :
    Polytope5D.length_check_raises 9 5 = false ∧
    (9 : Nat) ≠ 10 ∧
    Polytope5D.length_check_raises 9 4 = true ∧
    Polytope5D.length_check_raises 10 5 = false := by
  decide

/-- Claim C3, counterexample: with the coordinate-plane reflections of
`ℤ³` (genuine orthogonal involutions), the snub transform at the single
letter 1 (`r⁻¹`) returns the result of applying reflection 1 then
reflection 2, which differs from applying reflection 1 then reflection 0
as the claim prescribes for this letter. -/
theorem c3_transform_cex :
    Snub.transform reflDiag ((1, 1, 1) : ℤ × ℤ × ℤ) [1] = (1, -1, -1) ∧
    applyRotPair reflDiag (1, 0) ((1, 1, 1) : ℤ × ℤ × ℤ) = (-1, -1, 1) ∧
    ((1, -1, -1) : ℤ × ℤ × ℤ) ≠ ((-1, -1, 1) : ℤ × ℤ × ℤ) := by
  refine ⟨rfl, rfl, by decide⟩

/-- Claim C3, amended: for every word over the rotation letters and every
vector, the snub transform applies, for each letter in left-to-right
order, an ordered pair of reflections, but the pair table is the one the
source actually implements: in `Snub`, letter 0 (`r`) applies reflection
0 then 1 and every other letter (1, 2 and 3) applies reflection 1 then 2;
in `Snub24Cell`, letter 0 applies 0 then 1, letter 2 applies 1 then 2,
and every other letter (1, 3, 4 and 5) applies 1 then 3. -/
theorem c3_transform_amended {V : Type} (refl : Nat → V → V) (v : V) (w : Word) :
    Snub.transform refl v w
      = w.foldl (fun u g => applyRotPair refl (snubLetterPair g) u) v ∧
    Snub24Cell.transform refl v w
      = w.foldl (fun u g => applyRotPair refl (snub24LetterPair g) u) v := by
  constructor
  · unfold Snub.transform
    refine foldl_congr_fun _ _ ?_ w v
    intro u g
    by_cases h : g = 0 <;> simp [h, applyRotPair, snubLetterPair]
  · unfold Snub24Cell.transform
    refine foldl_congr_fun _ _ ?_ w v
    intro u g
    by_cases h : g = 0
    · simp [h, applyRotPair, snub24LetterPair]
    · by_cases h2 : g = 2 <;> simp [h, h2, applyRotPair, snub24LetterPair]

/-- Claim C6: after the dual build, the number of dual vertices equals
the total number of faces of the source polyhedron (summed over all face
orbits) and the number of dual faces equals its number of vertices. -/
theorem c6_catalan_counts {V : Type} (ops : Catalan3D.VecOps V)
    (buildP : PolyState V → PolyState V) (p : PolyState V) :
    (Catalan3D.build_geometry ops buildP (Catalan3D.init_state p)).vertices_coords.length
      = ((buildP p).face_indices.map List.length).sum ∧
    ((Catalan3D.build_geometry ops buildP (Catalan3D.init_state p)).face_indices.map
        List.length).sum
      = (buildP p).vertices_coords.length := by
  constructor
  · show ([] ++ Catalan3D.get_vertices ops (buildP p)).length = _
    simp [Catalan3D.get_vertices, List.length_flatMap, Function.comp_def, List.length_map]
  · show (([] ++ [Catalan3D.get_faces (buildP p)]).map List.length).sum = _
    simp [Catalan3D.get_faces]

/-- Claim C7, counterexample: building a Catalan dual from a freshly
constructed polyhedron mutates the source polyhedron, because the dual
build first triggers `P.build_geometry()`: with the one-coset enumeration
oracle, `P.num_vertices` is 0 when the dual build starts and 1 after it
finishes (the fields `vtable`, `vwords`, `vertices_coords` change as
well). -/
theorem c7_catalan_mutates_P :
    (Catalan3D.build_geometry opsU (BasePolytope.build_geometry cfg0)
        (Catalan3D.init_state (PolyState.init Unit))).P.num_vertices = 1 ∧
    (Catalan3D.init_state (PolyState.init Unit)).P.num_vertices = 0 := by
  exact ⟨rfl, rfl⟩

/-- Claim C7, amended: apart from the initial `P.build_geometry()` call
that `Catalan3D.build_geometry` itself performs, the dual construction
only reads the source polyhedron: the source state stored after the dual
build is exactly the result of that single build call, and the dual
vertex and face getters leave it untouched. -/
theorem c7_catalan_frame_amended {V : Type} (ops : Catalan3D.VecOps V)
    (buildP : PolyState V → PolyState V) (c : Catalan3D.State V) :
    (Catalan3D.build_geometry ops buildP c).P = buildP c.P := rfl

/-- Claim C9: word evaluation composes left to right and the empty word
is the identity, both for `BasePolytope.transform` on vectors and for
`BasePolytope.move` on vertex indices. -/
theorem c9_word_composition {V : Type} (refl : Nat → V → V)
    (vt : CosetTableResult) (v : V) (c : Nat) (w1 w2 : Word) :
    BasePolytope.transform refl v (w1 ++ w2)
      = BasePolytope.transform refl (BasePolytope.transform refl v w1) w2 ∧
    BasePolytope.move vt c (w1 ++ w2)
      = BasePolytope.move vt (BasePolytope.move vt c w1) w2 ∧
    BasePolytope.transform refl v [] = v ∧
    BasePolytope.move vt c [] = c := by
  refine ⟨?_, ?_, rfl, rfl⟩
  · simp [BasePolytope.transform, List.foldl_append]
  · simp [BasePolytope.move, List.foldl_append]

/-- Claim C4: in `BasePolytope.get_faces`, for a pair `i < j` of
generators with `m = M[i][j]`: if both mirrors are active, the base face
is the 2m-element list `move(0, (i,j)*k), move(0, (j,)+(i,j)*k)` for
k = 0..m-1 in this cyclic order; if exactly one of the two is active and
m > 2, it is the m-element list `move(0, (i,j)*k)`; in all other cases
no face of this pair-type is produced. -/
theorem c4_base_face (M : Nat → Nat → Nat) (active : Nat → Bool)
    (vt : CosetTableResult) (i j : Nat) :
    (active i = true → active j = true →
      BasePolytope.face_base M active vt i j =
        some (((List.range (M i j)).map (fun k =>
          [BasePolytope.move vt 0 (wordPow [i, j] k),
           BasePolytope.move vt 0 (j :: wordPow [i, j] k)])).flatten) ∧
      (((List.range (M i j)).map (fun k =>
          [BasePolytope.move vt 0 (wordPow [i, j] k),
           BasePolytope.move vt 0 (j :: wordPow [i, j] k)])).flatten).length = 2 * M i j) ∧
    (active i ≠ active j → 2 < M i j →
      BasePolytope.face_base M active vt i j =
        some ((List.range (M i j)).map (fun k =>
          BasePolytope.move vt 0 (wordPow [i, j] k))) ∧
      ((List.range (M i j)).map (fun k =>
          BasePolytope.move vt 0 (wordPow [i, j] k))).length = M i j) ∧
    (¬(active i = true ∧ active j = true) →
     ¬((active i = true ∨ active j = true) ∧ 2 < M i j) →
      BasePolytope.face_base M active vt i j = none) := by
  refine ⟨?_, ?_, ?_⟩
  · intro h1 h2
    constructor
    · simp [BasePolytope.face_base, h1, h2, foldl_append_init]
    · rw [List.length_flatten]
      simp only [List.map_map, Function.comp_def, List.length_cons, List.length_nil]
      rw [sum_map_const_two]
      simp [List.length_range]
  · intro h1 h2
    have hfalse : (active i && active j) = false := by
      cases hai : active i <;> cases haj : active j <;> simp_all
    have htrue : ((active i || active j) && decide (2 < M i j)) = true := by
      cases hai : active i <;> cases haj : active j <;> simp_all
    constructor
    · simp [BasePolytope.face_base, hfalse, htrue, foldl_append_init,
        flatten_map_singleton]
    · simp [List.length_map, List.length_range]
  · intro h1 h2
    have hfalse1 : (active i && active j) = false := by
      cases hai : active i <;> cases haj : active j <;> simp_all
    have hfalse2 : ((active i || active j) && decide (2 < M i j)) = false := by
      cases hai : active i <;> cases haj : active j <;> simp_all
    simp [BasePolytope.face_base, hfalse1, hfalse2]

/-- Witness for claim C4: the three branches evaluated on concrete
matrices, activity flags and the one-coset table. -/
theorem c4_base_face_witness :
    (activeAll 0 = true ∧ activeAll 1 = true ∧
      BasePolytope.face_base MB activeAll vt0 0 1 =
        some (((List.range (MB 0 1)).map (fun k =>
          [BasePolytope.move vt0 0 (wordPow [0, 1] k),
           BasePolytope.move vt0 0 (1 :: wordPow [0, 1] k)])).flatten)) ∧
    (activeOne 0 ≠ activeOne 1 ∧ 2 < MB 0 1 ∧
      BasePolytope.face_base MB activeOne vt0 0 1 =
        some ((List.range (MB 0 1)).map (fun k =>
          BasePolytope.move vt0 0 (wordPow [0, 1] k)))) ∧
    (¬(activeNone 0 = true ∧ activeNone 1 = true) ∧
     ¬((activeNone 0 = true ∨ activeNone 1 = true) ∧ 2 < MB 0 1) ∧
      BasePolytope.face_base MB activeNone vt0 0 1 = none) :=
  ⟨⟨rfl, rfl, ((c4_base_face MB activeAll vt0 0 1).1 rfl rfl).1⟩,
   ⟨by decide, by decide,
    ((c4_base_face MB activeOne vt0 0 1).2.1 (by decide) (by decide)).1⟩,
   ⟨by decide, by decide,
    (c4_base_face MB activeNone vt0 0 1).2.2 (by decide) (by decide)⟩⟩

/-- Claim C5: for every active mirror `i` (the Coxeter matrix being
symmetric, as `helpers.get_coxeter_matrix` guarantees), the generators of
the edge stabilizer passed to the coset enumeration are exactly the
one-letter word `(i,)` together with the one-letter words `(k,)` for
every inactive `k` with `M[k][i] = 2`, with no duplicates — in particular
no active mirror and not `(i,)` twice. -/
theorem c5_edge_stabilizer_gens (n : Nat) (M : Nat → Nat → Nat)
    (active : Nat → Bool) (i : Nat)
    (hact : active i = true) (hsym : ∀ a b, M a b = M b a) :
    (∀ w, w ∈ BasePolytope.edge_gens n M active i ↔
      (w = [i] ∨ ∃ k, k < n ∧ active k = false ∧ M k i = 2 ∧ w = [k])) ∧
    (BasePolytope.edge_gens n M active i).Nodup := by
  constructor
  · intro w
    constructor
    · intro hw
      rcases List.mem_cons.1 hw with rfl | hw
      · exact Or.inl rfl
      · right
        rcases List.mem_map.1 hw with ⟨s, hs, rfl⟩
        rcases List.mem_filter.1 hs with ⟨hrange, hcond⟩
        simp only [List.all_cons, List.all_nil, Bool.and_true, Bool.and_eq_true,
          beq_iff_eq, Bool.not_eq_true'] at hcond
        exact ⟨s, List.mem_range.1 hrange, hcond.2,
          by rw [hsym s i]; exact hcond.1, rfl⟩
    · intro hw
      rcases hw with rfl | ⟨k, hk, hak, hMk, rfl⟩
      · exact List.mem_cons_self _ _
      · refine List.mem_cons_of_mem _
          (List.mem_map.2 ⟨k, List.mem_filter.2 ⟨List.mem_range.2 hk, ?_⟩, rfl⟩)
        have hMik : M i k = 2 := by rw [hsym i k]; exact hMk
        simp [hak, hMik]
  · refine List.nodup_cons.2 ⟨?_, ?_⟩
    · intro hmem
      rcases List.mem_map.1 hmem with ⟨s, hs, hEq⟩
      have hsi : s = i := by simpa using hEq
      subst hsi
      rcases List.mem_filter.1 hs with ⟨_, hcond⟩
      simp [hact] at hcond
    · exact List.Nodup.map (fun a b hab => by simpa using hab)
        (List.Nodup.filter _ (List.nodup_range n))

/-- Witness for claim C5: mirror 0 active among three mirrors, all
off-diagonal orders 2. -/
theorem c5_edge_stabilizer_witness :
    activeOne 0 = true ∧ (∀ a b, MA a b = MA b a) ∧
    ((∀ w, w ∈ BasePolytope.edge_gens 3 MA activeOne 0 ↔
       (w = [0] ∨ ∃ k, k < 3 ∧ activeOne k = false ∧ MA k 0 = 2 ∧ w = [k])) ∧
     (BasePolytope.edge_gens 3 MA activeOne 0).Nodup) := by
  have hsym : ∀ a b, MA a b = MA b a := by
    intro a b
    by_cases h : a = b
    · simp [MA, h]
    · simp [MA, h, Ne.symm h]
  exact ⟨rfl, hsym, c5_edge_stabilizer_gens 3 MA activeOne 0 rfl hsym⟩

/-- Claim C8: after `build_geometry` on a Wythoff, Snub or Snub24Cell
builder whose vertex enumeration satisfies the Coset Table output
contract (at least one coset, action map closed on the live cosets),
every integer appearing in `edge_indices` and in `face_indices` is
strictly below `num_vertices` (indices are naturals, hence at least 0). -/
theorem c8_index_bounds {V : Type} (cfg : PolyConfig V) (scfg : Snub.Config V)
    (tcfg : Snub24Cell.Config V) :
    (TableContract (BasePolytope.vertex_table cfg) →
      AllIdxLt (BasePolytope.build_geometry cfg (PolyState.init V)).edge_indices
        (BasePolytope.build_geometry cfg (PolyState.init V)).num_vertices ∧
      AllIdxLt (BasePolytope.build_geometry cfg (PolyState.init V)).face_indices
        (BasePolytope.build_geometry cfg (PolyState.init V)).num_vertices) ∧
    (TableContract (Snub.vertex_table scfg) →
      AllIdxLt (Snub.build_geometry scfg (PolyState.init V)).edge_indices
        (Snub.build_geometry scfg (PolyState.init V)).num_vertices ∧
      AllIdxLt (Snub.build_geometry scfg (PolyState.init V)).face_indices
        (Snub.build_geometry scfg (PolyState.init V)).num_vertices) ∧
    (TableContract (Snub24Cell.vertex_table tcfg) →
      AllIdxLt (Snub24Cell.build_geometry tcfg (PolyState.init V)).edge_indices
        (Snub24Cell.build_geometry tcfg (PolyState.init V)).num_vertices ∧
      AllIdxLt (Snub24Cell.build_geometry tcfg (PolyState.init V)).face_indices
        (Snub24Cell.build_geometry tcfg (PolyState.init V)).num_vertices) := by
  refine ⟨?_, ?_, ?_⟩
  · rintro ⟨h0, hnext⟩
    have hv : BoundOk (BasePolytope.vertex_table cfg).words.length
        (BasePolytope.get_vertices cfg (PolyState.init V)) :=
      ⟨rfl, fun o ho => absurd ho (List.not_mem_nil o),
        fun o ho => absurd ho (List.not_mem_nil o)⟩
    have hb := get_faces_aux_boundOk cfg (BasePolytope.vertex_table cfg) hnext h0 _
      (get_edges_aux_boundOk cfg (BasePolytope.vertex_table cfg) hnext h0 _ hv)
    rw [base_build_eq, hb.1]
    exact ⟨hb.2.1, hb.2.2⟩
  · rintro ⟨h0, hnext⟩
    have hv : BoundOk (Snub.vertex_table scfg).words.length
        (Snub.get_vertices scfg (PolyState.init V)) :=
      ⟨rfl, fun o ho => absurd ho (List.not_mem_nil o),
        fun o ho => absurd ho (List.not_mem_nil o)⟩
    have hb := snub_get_faces_aux_boundOk scfg (Snub.vertex_table scfg) hnext h0 _
      (snub_get_edges_aux_boundOk scfg (Snub.vertex_table scfg) hnext h0 _ hv)
    rw [snub_build_eq, hb.1]
    exact ⟨hb.2.1, hb.2.2⟩
  · rintro ⟨h0, hnext⟩
    have hv : BoundOk (Snub24Cell.vertex_table tcfg).words.length
        (Snub24Cell.get_vertices tcfg (PolyState.init V)) :=
      ⟨rfl, fun o ho => absurd ho (List.not_mem_nil o),
        fun o ho => absurd ho (List.not_mem_nil o)⟩
    have hb := snub24_get_faces_aux_boundOk tcfg (Snub24Cell.vertex_table tcfg) hnext h0 _
      (snub24_get_edges_aux_boundOk tcfg (Snub24Cell.vertex_table tcfg) hnext h0 _ hv)
    rw [snub24_build_eq, hb.1]
    exact ⟨hb.2.1, hb.2.2⟩

/-- Witness for claim C8: the three builders run with the one-coset
enumeration oracle, which satisfies the table contract. -/
theorem c8_index_bounds_witness :
    TableContract (BasePolytope.vertex_table cfgA) ∧
    TableContract (Snub.vertex_table scfgA) ∧
    TableContract (Snub24Cell.vertex_table tcfgA) ∧
    (AllIdxLt (BasePolytope.build_geometry cfgA (PolyState.init Unit)).edge_indices
       (BasePolytope.build_geometry cfgA (PolyState.init Unit)).num_vertices ∧
     AllIdxLt (BasePolytope.build_geometry cfgA (PolyState.init Unit)).face_indices
       (BasePolytope.build_geometry cfgA (PolyState.init Unit)).num_vertices) ∧
    (AllIdxLt (Snub.build_geometry scfgA (PolyState.init Unit)).edge_indices
       (Snub.build_geometry scfgA (PolyState.init Unit)).num_vertices ∧
     AllIdxLt (Snub.build_geometry scfgA (PolyState.init Unit)).face_indices
       (Snub.build_geometry scfgA (PolyState.init Unit)).num_vertices) ∧
    (AllIdxLt (Snub24Cell.build_geometry tcfgA (PolyState.init Unit)).edge_indices
       (Snub24Cell.build_geometry tcfgA (PolyState.init Unit)).num_vertices ∧
     AllIdxLt (Snub24Cell.build_geometry tcfgA (PolyState.init Unit)).face_indices
       (Snub24Cell.build_geometry tcfgA (PolyState.init Unit)).num_vertices) := by
  have h1 : TableContract (BasePolytope.vertex_table cfgA) :=
    ⟨Nat.one_pos, fun c g _ => Nat.one_pos⟩
  have h2 : TableContract (Snub.vertex_table scfgA) :=
    ⟨Nat.one_pos, fun c g _ => Nat.one_pos⟩
  have h3 : TableContract (Snub24Cell.vertex_table tcfgA) :=
    ⟨Nat.one_pos, fun c g _ => Nat.one_pos⟩
  exact ⟨h1, h2, h3, (c8_index_bounds cfgA scfgA tcfgA).1 h1,
    (c8_index_bounds cfgA scfgA tcfgA).2.1 h2,
    (c8_index_bounds cfgA scfgA tcfgA).2.2 h3⟩

/-- Claim C10: after `build_geometry` on any builder (Wythoff, Snub or
Snub24Cell), `num_edges` equals the summed lengths of the orbit lists
stored in `edge_indices`, and `num_faces` equals the summed lengths of
the orbit lists stored in `face_indices`. -/
theorem c10_counters {V : Type} (cfg : PolyConfig V) (scfg : Snub.Config V)
    (tcfg : Snub24Cell.Config V) :
    ((BasePolytope.build_geometry cfg (PolyState.init V)).num_edges
       = ((BasePolytope.build_geometry cfg (PolyState.init V)).edge_indices.map
           List.length).sum ∧
     (BasePolytope.build_geometry cfg (PolyState.init V)).num_faces
       = ((BasePolytope.build_geometry cfg (PolyState.init V)).face_indices.map
           List.length).sum) ∧
    ((Snub.build_geometry scfg (PolyState.init V)).num_edges
       = ((Snub.build_geometry scfg (PolyState.init V)).edge_indices.map
           List.length).sum ∧
     (Snub.build_geometry scfg (PolyState.init V)).num_faces
       = ((Snub.build_geometry scfg (PolyState.init V)).face_indices.map
           List.length).sum) ∧
    ((Snub24Cell.build_geometry tcfg (PolyState.init V)).num_edges
       = ((Snub24Cell.build_geometry tcfg (PolyState.init V)).edge_indices.map
           List.length).sum ∧
     (Snub24Cell.build_geometry tcfg (PolyState.init V)).num_faces
       = ((Snub24Cell.build_geometry tcfg (PolyState.init V)).face_indices.map
           List.length).sum) := by
  refine ⟨?_, ?_, ?_⟩
  · rw [base_build_eq]
    exact get_faces_aux_countOk _ _ _ (get_edges_aux_countOk _ _ _ ⟨rfl, rfl⟩)
  · rw [snub_build_eq]
    exact snub_get_faces_aux_countOk _ _ _ (snub_get_edges_aux_countOk _ _ _ ⟨rfl, rfl⟩)
  · rw [snub24_build_eq]
    exact snub24_get_faces_aux_countOk _ _ _ (snub24_get_edges_aux_countOk _ _ _ ⟨rfl, rfl⟩)
